import Mathlib

/-!
Verification of the treasure-codes QR-plate generator.

This file gives a shallow embedding, over exact rationals, of the geometric
core of `generate_3d_qr.py` (box mesh builder, layout calculator, the
QR-placement loops of the combined / multicolor / inlay builders, the 3MF
archive writer, size parsing and generator dispatch) and of the batch driver
`generate_all.py`, and proves the specified properties about it.
-/

set_option maxHeartbeats 1000000

namespace TreasureCodes

/-- A 3D point with exact rational coordinates (the embedding of one row of
the numpy vertex arrays). -/
structure Vec3 where
  x : ℚ
  y : ℚ
  z : ℚ
deriving DecidableEq, Repr

/-- A mesh triangle: three vertices in winding order. -/
structure Triangle where
  a : Vec3
  b : Vec3
  c : Vec3
deriving DecidableEq, Repr

/-- Embedding of `create_box_triangles(x, y, z, width, depth, height)`
(src/generate_3d_qr.py lines 59-80): the eight corner vertices `v0 .. v7`
and the twelve triangles in the order Bottom, Top, Front, Back, Left, Right,
with exactly the vertex indices used by the source. -/
def create_box_triangles (x y z width depth height : ℚ) : List Triangle :=
  let v0 : Vec3 := ⟨x - width/2, y - depth/2, z⟩
  let v1 : Vec3 := ⟨x + width/2, y - depth/2, z⟩
  let v2 : Vec3 := ⟨x + width/2, y + depth/2, z⟩
  let v3 : Vec3 := ⟨x - width/2, y + depth/2, z⟩
  let v4 : Vec3 := ⟨x - width/2, y - depth/2, z + height⟩
  let v5 : Vec3 := ⟨x + width/2, y - depth/2, z + height⟩
  let v6 : Vec3 := ⟨x + width/2, y + depth/2, z + height⟩
  let v7 : Vec3 := ⟨x - width/2, y + depth/2, z + height⟩
  [⟨v0, v2, v1⟩, ⟨v0, v3, v2⟩,
   ⟨v4, v5, v6⟩, ⟨v4, v6, v7⟩,
   ⟨v0, v1, v5⟩, ⟨v0, v5, v4⟩,
   ⟨v2, v3, v7⟩, ⟨v2, v7, v6⟩,
   ⟨v0, v4, v7⟩, ⟨v0, v7, v3⟩,
   ⟨v1, v2, v6⟩, ⟨v1, v6, v5⟩]

/-- The three vertices of a triangle, as a list. -/
def tri_verts (t : Triangle) : List Vec3 := [t.a, t.b, t.c]

/-- All vertex slots of a triangle list (with duplication, as in the flat
numpy `(n, 3, 3)` layout the source uses). -/
def mesh_verts (ts : List Triangle) : List Vec3 := ts.flatMap tri_verts

/-- Componentwise difference of two vertices. -/
def vsub (p q : Vec3) : Vec3 := ⟨p.x - q.x, p.y - q.y, p.z - q.z⟩

/-- Cross product of two vectors. -/
def cross (u w : Vec3) : Vec3 :=
  ⟨u.y * w.z - u.z * w.y, u.z * w.x - u.x * w.z, u.x * w.y - u.y * w.x⟩

/-- The (unnormalised) face normal of a triangle determined by its winding
order: `(b - a) x (c - a)`. -/
def tri_normal (t : Triangle) : Vec3 := cross (vsub t.b t.a) (vsub t.c t.a)

theorem create_box_triangles_length (x y z w d h : ℚ) :
    (create_box_triangles x y z w d h).length = 12 := rfl

theorem mesh_verts_box_length (x y z w d h : ℚ) :
    (mesh_verts (create_box_triangles x y z w d h)).length = 36 := rfl

/-- Characterisation of the vertex slots of a box: a point occurs among them
iff each coordinate is one of the two corresponding box extremes. -/
theorem mem_mesh_verts_box (cx cy z0 w d h : ℚ) (v : Vec3) :
    v ∈ mesh_verts (create_box_triangles cx cy z0 w d h) ↔
      (v.x = cx - w/2 ∨ v.x = cx + w/2) ∧
      (v.y = cy - d/2 ∨ v.y = cy + d/2) ∧
      (v.z = z0 ∨ v.z = z0 + h) := by
  obtain ⟨vx, vy, vz⟩ := v
  simp only [create_box_triangles, mesh_verts, tri_verts, List.flatMap_cons,
    List.flatMap_nil, List.append_nil, List.cons_append, List.nil_append,
    List.mem_cons, List.not_mem_nil, or_false, Vec3.mk.injEq]
  constructor
  · intro hv
    repeat' rcases hv with ⟨rfl, rfl, rfl⟩ | hv
    all_goals simp_all
  · rintro ⟨hx | hx, hy | hy, hz | hz⟩ <;> subst hx <;> subst hy <;> subst hz <;> simp

/-- The twelve face normals of a box, in source order: two per face for
Bottom (`-Z`), Top (`+Z`), Front (`-Y`), Back (`+Y`), Left (`-X`),
Right (`+X`). -/
theorem box_normals (cx cy z0 w d h : ℚ) :
    (create_box_triangles cx cy z0 w d h).map tri_normal =
      [⟨0, 0, -(d*w)⟩, ⟨0, 0, -(d*w)⟩,
       ⟨0, 0, d*w⟩, ⟨0, 0, d*w⟩,
       ⟨0, -(w*h), 0⟩, ⟨0, -(w*h), 0⟩,
       ⟨0, w*h, 0⟩, ⟨0, w*h, 0⟩,
       ⟨-(d*h), 0, 0⟩, ⟨-(d*h), 0, 0⟩,
       ⟨d*h, 0, 0⟩, ⟨d*h, 0, 0⟩] := by
  simp only [create_box_triangles, tri_normal, cross, vsub, List.map_cons,
    List.map_nil, List.cons.injEq, Vec3.mk.injEq, and_true]
  repeat' apply And.intro
  all_goals ring

/-- The layout record returned by `get_dimensions` (src/generate_3d_qr.py
lines 83-93). -/
structure Dimensions where
  qr_size_mm : ℚ
  margin : ℚ
  text_area_height : ℚ
  corner_radius : ℚ
  text_size : ℚ
  text_y_offset : ℚ
deriving DecidableEq, Repr

/-- Embedding of `get_dimensions(qr_size_mm)`: every derived field is the
reference constant times `scale = qr_size_mm / 42`. -/
def get_dimensions (qr_size_mm : ℚ) : Dimensions :=
  let scale : ℚ := qr_size_mm / 42
  { qr_size_mm := qr_size_mm
    margin := 2 * scale
    text_area_height := 5 * scale
    corner_radius := 2.5 * scale
    text_size := 4.2 * scale
    text_y_offset := 1.8 * scale }

/-- `total_width` as computed at the call sites
(src/generate_3d_qr.py line 108 and 205/388). -/
def total_width (d : Dimensions) : ℚ := d.qr_size_mm + 2 * d.margin

/-- `total_height` as computed at the call sites
(src/generate_3d_qr.py line 107 and 204/387). -/
def total_height (d : Dimensions) : ℚ :=
  d.text_area_height + d.qr_size_mm + 2 * d.margin

/-- C4: for every `qr_size_mm > 0` the layout calculator returns all derived
fields strictly positive, each derived field equals its reference constant
times `qr_size_mm / 42` exactly, and the call-site totals satisfy
`total_width = qr_size_mm + 2*margin` and
`total_height = text_area_height + qr_size_mm + 2*margin` exactly. -/
theorem c4_layout_calculator (q : ℚ) (hq : 0 < q) :
    (0 < (get_dimensions q).qr_size_mm ∧ 0 < (get_dimensions q).margin ∧
     0 < (get_dimensions q).text_area_height ∧ 0 < (get_dimensions q).corner_radius ∧
     0 < (get_dimensions q).text_size ∧ 0 < (get_dimensions q).text_y_offset) ∧
    ((get_dimensions q).margin = 2 * (q / 42) ∧
     (get_dimensions q).text_area_height = 5 * (q / 42) ∧
     (get_dimensions q).corner_radius = 2.5 * (q / 42) ∧
     (get_dimensions q).text_size = 4.2 * (q / 42) ∧
     (get_dimensions q).text_y_offset = 1.8 * (q / 42)) ∧
    total_width (get_dimensions q) = q + 2 * (get_dimensions q).margin ∧
    total_height (get_dimensions q) =
      (get_dimensions q).text_area_height + q + 2 * (get_dimensions q).margin := by
  have hs : (0 : ℚ) < q / 42 := div_pos hq (by norm_num)
  refine ⟨⟨hq, mul_pos (by norm_num) hs, mul_pos (by norm_num) hs,
    mul_pos (by norm_num) hs, mul_pos (by norm_num) hs, mul_pos (by norm_num) hs⟩,
    ⟨rfl, rfl, rfl, rfl, rfl⟩, rfl, rfl⟩

/-- Witness for `c4_layout_calculator` at `qr_size_mm = 50`. -/
theorem c4_layout_calculator_witness :
    (0 : ℚ) < 50 ∧ (0 < (get_dimensions 50).margin ∧
      (get_dimensions 50).margin = 2 * (50 / 42 : ℚ) ∧
      total_width (get_dimensions 50) = 50 + 2 * (get_dimensions 50).margin) :=
  ⟨by norm_num,
   (c4_layout_calculator 50 (by norm_num)).1.2.1,
   (c4_layout_calculator 50 (by norm_num)).2.1.1,
   (c4_layout_calculator 50 (by norm_num)).2.2.1⟩

/-- Embedding of the QR-placement loop (src/generate_3d_qr.py lines 142-149;
the identical loops at 239-245 and 447-453 differ only in the extrusion
height passed for `square_height`): for each bitmap cell `(i, j)` with value
1, emit `create_box_triangles(x, y, base_height, square_size, square_size,
square_height)` with `pixel_size = qr_size_mm / N`,
`x = (j - N/2) * pixel_size`,
`y = (N/2 - i) * pixel_size + qr_offset_y`,
`qr_offset_y = -text_area_height / 2`, and
`square_size = pixel_size * 0.95`. -/
def qr_pattern_triangles (N : ℕ) (bit : ℕ → ℕ → ℕ)
    (qr_size_mm text_area_height base_height square_height : ℚ) : List Triangle :=
  (List.range N).flatMap (fun i =>
    (List.range N).flatMap (fun j =>
      if bit i j = 1 then
        create_box_triangles
          (((j : ℚ) - (N : ℚ) / 2) * (qr_size_mm / (N : ℚ)))
          (((N : ℚ) / 2 - (i : ℚ)) * (qr_size_mm / (N : ℚ)) + -text_area_height / 2)
          base_height
          (qr_size_mm / (N : ℚ) * 0.95)
          (qr_size_mm / (N : ℚ) * 0.95)
          square_height
      else []))

/-- The cells `(i, j)` of the bitmap with value 1, in the loop's row-major
visiting order (one entry per emitted box). -/
def qr_ones (N : ℕ) (bit : ℕ → ℕ → ℕ) : List (ℕ × ℕ) :=
  (List.range N).flatMap (fun i =>
    ((List.range N).filter (fun j => decide (bit i j = 1))).map (fun j => (i, j)))

/-- The box the QR-placement loop emits for one cell `c = (i, j)`. -/
def qr_cell_box (N : ℕ) (qr_size_mm text_area_height base_height square_height : ℚ)
    (c : ℕ × ℕ) : List Triangle :=
  create_box_triangles
    (((c.2 : ℚ) - (N : ℚ) / 2) * (qr_size_mm / (N : ℚ)))
    (((N : ℚ) / 2 - (c.1 : ℚ)) * (qr_size_mm / (N : ℚ)) + -text_area_height / 2)
    base_height
    (qr_size_mm / (N : ℚ) * 0.95)
    (qr_size_mm / (N : ℚ) * 0.95)
    square_height

/-- The number of bitmap cells `(i, j)` with `i, j < N` and value 1. -/
def ones_count (N : ℕ) (bit : ℕ → ℕ → ℕ) : ℕ :=
  ((List.range N).map
    (fun i => ((List.range N).filter (fun j => decide (bit i j = 1))).length)).sum

theorem flatMap_ite_eq_filter {α β : Type} (p : α → Prop) [DecidablePred p]
    (f : α → List β) (l : List α) :
    (l.flatMap fun a => if p a then f a else []) =
      (l.filter fun a => decide (p a)).flatMap f := by
  induction l with
  | nil => simp
  | cons a t ih => by_cases h : p a <;> simp [List.filter_cons, h, ih]

/-- The QR-placement loop refines to: one `qr_cell_box` per 1-cell, in
visiting order. -/
theorem qr_pattern_refines (N : ℕ) (bit : ℕ → ℕ → ℕ) (qmm tah bh sh : ℚ) :
    qr_pattern_triangles N bit qmm tah bh sh =
      (qr_ones N bit).flatMap (qr_cell_box N qmm tah bh sh) := by
  unfold qr_pattern_triangles qr_ones
  rw [List.flatMap_assoc]
  congr 1
  funext i
  rw [flatMap_ite_eq_filter (fun j => bit i j = 1), List.flatMap_map]
  rfl

theorem qr_ones_length (N : ℕ) (bit : ℕ → ℕ → ℕ) :
    (qr_ones N bit).length = ones_count N bit := by
  simp [qr_ones, ones_count, List.length_flatMap, Function.comp_def]

theorem qr_pattern_length (N : ℕ) (bit : ℕ → ℕ → ℕ) (qmm tah bh sh : ℚ) :
    (qr_pattern_triangles N bit qmm tah bh sh).length = 12 * ones_count N bit := by
  rw [qr_pattern_refines, List.length_flatMap, ← qr_ones_length N bit]
  have hc : ∀ c : ℕ × ℕ, ((qr_cell_box N qmm tah bh sh) c).length = 12 := by
    intro c; rfl
  induction qr_ones N bit with
  | nil => simp
  | cons c t ih => simp [Function.comp, hc, ih, Nat.mul_add, Nat.add_comm]

/-- C1: for a square bitmap of side `N` and positive `qr_size_mm`, the
QR-placement loop emits exactly one box per 1-cell (so `12*k` triangles for
`k` set cells, before any text is added), and each emitted box is centered
at `x = (j - N/2) * pixel_size`,
`y = (N/2 - i) * pixel_size - text_area_height/2`, has side
`pixel_size * 0.95` in X and Y, and extends upward from `z = base_height`
(its vertex slots are exactly the corners of that box). -/
theorem c1_qr_placement (N : ℕ) (bit : ℕ → ℕ → ℕ) (qmm tah bh qh : ℚ)
    (_hN : 0 < N) (_hq : 0 < qmm) :
    (qr_pattern_triangles N bit qmm tah bh qh).length = 12 * ones_count N bit ∧
    qr_pattern_triangles N bit qmm tah bh qh =
      (qr_ones N bit).flatMap (qr_cell_box N qmm tah bh qh) ∧
    ∀ i j : ℕ, bit i j = 1 → ∀ v : Vec3,
      v ∈ mesh_verts (qr_cell_box N qmm tah bh qh (i, j)) ↔
        ((v.x = ((j : ℚ) - (N : ℚ)/2) * (qmm/(N : ℚ)) - qmm/(N : ℚ) * 0.95 / 2 ∨
          v.x = ((j : ℚ) - (N : ℚ)/2) * (qmm/(N : ℚ)) + qmm/(N : ℚ) * 0.95 / 2) ∧
         (v.y = ((N : ℚ)/2 - (i : ℚ)) * (qmm/(N : ℚ)) - tah/2 - qmm/(N : ℚ) * 0.95 / 2 ∨
          v.y = ((N : ℚ)/2 - (i : ℚ)) * (qmm/(N : ℚ)) - tah/2 + qmm/(N : ℚ) * 0.95 / 2) ∧
         (v.z = bh ∨ v.z = bh + qh)) := by
  refine ⟨qr_pattern_length N bit qmm tah bh qh, qr_pattern_refines N bit qmm tah bh qh, ?_⟩
  intro i j _ v
  unfold qr_cell_box
  rw [mem_mesh_verts_box]
  constructor
  · rintro ⟨hx, hy, hz⟩
    exact ⟨hx.imp (fun e => by rw [e]; try ring) (fun e => by rw [e]; try ring),
           hy.imp (fun e => by rw [e]; try ring) (fun e => by rw [e]; try ring), hz⟩
  · rintro ⟨hx, hy, hz⟩
    exact ⟨hx.imp (fun e => by rw [e]; try ring) (fun e => by rw [e]; try ring),
           hy.imp (fun e => by rw [e]; try ring) (fun e => by rw [e]; try ring), hz⟩

/-- A small concrete bitmap (one cell set) used by the witnesses. -/
def demo_bit : ℕ → ℕ → ℕ := fun i j => if i = 0 ∧ j = 1 then 1 else 0

/-- Witness for `c1_qr_placement` on a concrete 2x2 bitmap with one set
cell. -/
theorem c1_qr_placement_witness :
    0 < 2 ∧ (0 : ℚ) < 42 ∧
      (qr_pattern_triangles 2 demo_bit 42 5 (9/5) (9/10)).length =
        12 * ones_count 2 demo_bit :=
  ⟨by norm_num, by norm_num,
   (c1_qr_placement 2 demo_bit 42 5 (9/5) (9/10) (by norm_num) (by norm_num)).1⟩

/-- C3: for positive width/depth/height, `create_box_triangles` returns
exactly 12 triangles (36 vertex slots, duplicated across shared edges),
the bounding box of its vertices is exactly
`[cx-w/2, cx+w/2] x [cy-d/2, cy+d/2] x [z, z+h]` (all vertices inside and
every face of the box attained), and the two triangles of each face are
wound consistently outward: normals point in `-Z, +Z, -Y, +Y, -X, +X` for
the bottom, top, front, back, left and right faces respectively. -/
theorem c3_make_box (cx cy z0 w d h : ℚ) (hw : 0 < w) (hd : 0 < d) (hh : 0 < h) :
    (create_box_triangles cx cy z0 w d h).length = 12 ∧
    (mesh_verts (create_box_triangles cx cy z0 w d h)).length = 36 ∧
    (∀ v ∈ mesh_verts (create_box_triangles cx cy z0 w d h),
      (cx - w/2 ≤ v.x ∧ v.x ≤ cx + w/2) ∧
      (cy - d/2 ≤ v.y ∧ v.y ≤ cy + d/2) ∧
      (z0 ≤ v.z ∧ v.z ≤ z0 + h)) ∧
    ((∃ v ∈ mesh_verts (create_box_triangles cx cy z0 w d h), v.x = cx - w/2) ∧
     (∃ v ∈ mesh_verts (create_box_triangles cx cy z0 w d h), v.x = cx + w/2) ∧
     (∃ v ∈ mesh_verts (create_box_triangles cx cy z0 w d h), v.y = cy - d/2) ∧
     (∃ v ∈ mesh_verts (create_box_triangles cx cy z0 w d h), v.y = cy + d/2) ∧
     (∃ v ∈ mesh_verts (create_box_triangles cx cy z0 w d h), v.z = z0) ∧
     (∃ v ∈ mesh_verts (create_box_triangles cx cy z0 w d h), v.z = z0 + h)) ∧
    (∀ n ∈ ((create_box_triangles cx cy z0 w d h).map tri_normal).take 2,
      n.x = 0 ∧ n.y = 0 ∧ n.z < 0) ∧
    (∀ n ∈ (((create_box_triangles cx cy z0 w d h).map tri_normal).drop 2).take 2,
      n.x = 0 ∧ n.y = 0 ∧ 0 < n.z) ∧
    (∀ n ∈ (((create_box_triangles cx cy z0 w d h).map tri_normal).drop 4).take 2,
      n.x = 0 ∧ n.y < 0 ∧ n.z = 0) ∧
    (∀ n ∈ (((create_box_triangles cx cy z0 w d h).map tri_normal).drop 6).take 2,
      n.x = 0 ∧ 0 < n.y ∧ n.z = 0) ∧
    (∀ n ∈ (((create_box_triangles cx cy z0 w d h).map tri_normal).drop 8).take 2,
      n.x < 0 ∧ n.y = 0 ∧ n.z = 0) ∧
    (∀ n ∈ (((create_box_triangles cx cy z0 w d h).map tri_normal).drop 10).take 2,
      0 < n.x ∧ n.y = 0 ∧ n.z = 0) := by
  have hdw : (0 : ℚ) < d * w := mul_pos hd hw
  have hwh : (0 : ℚ) < w * h := mul_pos hw hh
  have hdh : (0 : ℚ) < d * h := mul_pos hd hh
  have hbot : ((create_box_triangles cx cy z0 w d h).map tri_normal).take 2 =
      [⟨0, 0, -(d*w)⟩, ⟨0, 0, -(d*w)⟩] := by rw [box_normals]; rfl
  have htop : (((create_box_triangles cx cy z0 w d h).map tri_normal).drop 2).take 2 =
      [⟨0, 0, d*w⟩, ⟨0, 0, d*w⟩] := by rw [box_normals]; rfl
  have hfro : (((create_box_triangles cx cy z0 w d h).map tri_normal).drop 4).take 2 =
      [⟨0, -(w*h), 0⟩, ⟨0, -(w*h), 0⟩] := by rw [box_normals]; rfl
  have hbac : (((create_box_triangles cx cy z0 w d h).map tri_normal).drop 6).take 2 =
      [⟨0, w*h, 0⟩, ⟨0, w*h, 0⟩] := by rw [box_normals]; rfl
  have hlef : (((create_box_triangles cx cy z0 w d h).map tri_normal).drop 8).take 2 =
      [⟨-(d*h), 0, 0⟩, ⟨-(d*h), 0, 0⟩] := by rw [box_normals]; rfl
  have hrig : (((create_box_triangles cx cy z0 w d h).map tri_normal).drop 10).take 2 =
      [⟨d*h, 0, 0⟩, ⟨d*h, 0, 0⟩] := by rw [box_normals]; rfl
  refine ⟨rfl, rfl, ?_, ?_, ?_, ?_, ?_, ?_, ?_, ?_⟩
  · intro v hv
    rw [mem_mesh_verts_box] at hv
    obtain ⟨hx, hy, hz⟩ := hv
    rcases hx with e | e <;> rcases hy with e2 | e2 <;> rcases hz with e3 | e3 <;>
      exact ⟨⟨by rw [e]; try linarith, by rw [e]; try linarith⟩,
             ⟨by rw [e2]; try linarith, by rw [e2]; try linarith⟩,
             ⟨by rw [e3]; try linarith, by rw [e3]; try linarith⟩⟩
  · refine ⟨?_, ?_, ?_, ?_, ?_, ?_⟩
    · exact ⟨⟨cx - w/2, cy - d/2, z0⟩,
        (mem_mesh_verts_box cx cy z0 w d h _).mpr (by simp), rfl⟩
    · exact ⟨⟨cx + w/2, cy - d/2, z0⟩,
        (mem_mesh_verts_box cx cy z0 w d h _).mpr (by simp), rfl⟩
    · exact ⟨⟨cx - w/2, cy - d/2, z0⟩,
        (mem_mesh_verts_box cx cy z0 w d h _).mpr (by simp), rfl⟩
    · exact ⟨⟨cx - w/2, cy + d/2, z0⟩,
        (mem_mesh_verts_box cx cy z0 w d h _).mpr (by simp), rfl⟩
    · exact ⟨⟨cx - w/2, cy - d/2, z0⟩,
        (mem_mesh_verts_box cx cy z0 w d h _).mpr (by simp), rfl⟩
    · exact ⟨⟨cx - w/2, cy - d/2, z0 + h⟩,
        (mem_mesh_verts_box cx cy z0 w d h _).mpr (by simp), rfl⟩
  · intro n hn
    rw [hbot] at hn
    simp only [List.mem_cons, List.not_mem_nil, or_false, or_self] at hn
    subst hn
    exact ⟨rfl, rfl, neg_lt_zero.mpr hdw⟩
  · intro n hn
    rw [htop] at hn
    simp only [List.mem_cons, List.not_mem_nil, or_false, or_self] at hn
    subst hn
    exact ⟨rfl, rfl, hdw⟩
  · intro n hn
    rw [hfro] at hn
    simp only [List.mem_cons, List.not_mem_nil, or_false, or_self] at hn
    subst hn
    exact ⟨rfl, neg_lt_zero.mpr hwh, rfl⟩
  · intro n hn
    rw [hbac] at hn
    simp only [List.mem_cons, List.not_mem_nil, or_false, or_self] at hn
    subst hn
    exact ⟨rfl, hwh, rfl⟩
  · intro n hn
    rw [hlef] at hn
    simp only [List.mem_cons, List.not_mem_nil, or_false, or_self] at hn
    subst hn
    exact ⟨neg_lt_zero.mpr hdh, rfl, rfl⟩
  · intro n hn
    rw [hrig] at hn
    simp only [List.mem_cons, List.not_mem_nil, or_false, or_self] at hn
    subst hn
    exact ⟨hdh, rfl, rfl⟩

/-- Witness for `c3_make_box` at a concrete box. -/
theorem c3_make_box_witness :
    (0 : ℚ) < 2 ∧ (0 : ℚ) < 3 ∧ (0 : ℚ) < 1 ∧
      (create_box_triangles 0 0 0 2 3 1).length = 12 :=
  ⟨by norm_num, by norm_num, by norm_num,
   (c3_make_box 0 0 0 2 3 1 (by norm_num) (by norm_num) (by norm_num)).1⟩

/-- Embedding of the inlay background-fill slab (src/generate_3d_qr.py
line 437): `create_box_triangles(0, 0, base_height, total_width,
total_height, inlay_height)`. -/
def inlay_fill_triangles (total_w total_h base_height inlay_height : ℚ) :
    List Triangle :=
  create_box_triangles 0 0 base_height total_w total_h inlay_height

/-- Embedding of the inlay-style QR loop (src/generate_3d_qr.py lines
447-453): the shared placement loop, extruded by `inlay_height` upward from
`base_height`. -/
def inlay_white_triangles (N : ℕ) (bit : ℕ → ℕ → ℕ) (qmm tah bh ih : ℚ) :
    List Triangle :=
  qr_pattern_triangles N bit qmm tah bh ih

theorem mesh_verts_flatMap {α : Type} (l : List α) (f : α → List Triangle) :
    mesh_verts (l.flatMap f) = l.flatMap (fun a => mesh_verts (f a)) := by
  simp [mesh_verts, List.flatMap_assoc]

/-- C5: in the inlay style, the full-coverage background-fill slab spans
exactly `[base_height, base_height + inlay_height]` in Z, every pattern box
also spans `[base_height, base_height + inlay_height]`, and every emitted
pattern box attains the common top elevation `base_height + inlay_height`,
so the combined top surface is flush. -/
theorem c5_inlay_flush (N : ℕ) (bit : ℕ → ℕ → ℕ) (qmm tah tw th bh ih : ℚ) :
    (∀ v ∈ mesh_verts (inlay_fill_triangles tw th bh ih), v.z = bh ∨ v.z = bh + ih) ∧
    (∃ v ∈ mesh_verts (inlay_fill_triangles tw th bh ih), v.z = bh + ih) ∧
    (∀ v ∈ mesh_verts (inlay_white_triangles N bit qmm tah bh ih),
      v.z = bh ∨ v.z = bh + ih) ∧
    (∀ c ∈ qr_ones N bit,
      ∃ v ∈ mesh_verts (qr_cell_box N qmm tah bh ih c), v.z = bh + ih) := by
  refine ⟨?_, ?_, ?_, ?_⟩
  · intro v hv
    exact ((mem_mesh_verts_box 0 0 bh tw th ih v).mp hv).2.2
  · exact ⟨⟨0 - tw/2, 0 - th/2, bh + ih⟩,
      (mem_mesh_verts_box 0 0 bh tw th ih _).mpr (by simp), rfl⟩
  · intro v hv
    unfold inlay_white_triangles at hv
    rw [qr_pattern_refines, mesh_verts_flatMap, List.mem_flatMap] at hv
    obtain ⟨c, _, hvc⟩ := hv
    exact ((mem_mesh_verts_box _ _ bh _ _ ih v).mp hvc).2.2
  · intro c _
    exact ⟨⟨((c.2 : ℚ) - (N : ℚ)/2) * (qmm/(N : ℚ)) - qmm/(N : ℚ) * 0.95 / 2,
      ((N : ℚ)/2 - (c.1 : ℚ)) * (qmm/(N : ℚ)) + -tah/2 - qmm/(N : ℚ) * 0.95 / 2,
      bh + ih⟩,
      (mem_mesh_verts_box _ _ bh _ _ ih _).mpr (by simp), rfl⟩

/-- Witness for `c5_inlay_flush` instantiating the flush-top statements on a
concrete inlay configuration. -/
theorem c5_inlay_flush_witness :
    ∃ v ∈ mesh_verts (inlay_fill_triangles 54 (1299/20) (9/5) (3/5)),
      v.z = (9/5 : ℚ) + 3/5 :=
  (c5_inlay_flush 2 demo_bit 42 5 54 (1299/20) (9/5) (3/5)).2.1

/-- A `<triangle>` element of the 3MF model XML: vertex indices
`v1 v2 v3` and the material reference pair `pid`/`p1`. -/
structure TriangleTag where
  v1 : ℕ
  v2 : ℕ
  v3 : ℕ
  pid : ℕ
  p1 : ℕ
deriving DecidableEq, Repr

/-- Embedding of the triangle rows written by `mesh_to_3mf_xml(mesh_obj,
object_id)` (src/generate_3d_qr.py lines 277-289): every face is emitted
with `pid="1"` and `p1="object_id - 1"`. -/
def mesh_to_3mf_triangles (faces : List (ℕ × ℕ × ℕ)) (object_id : ℕ) :
    List TriangleTag :=
  faces.map (fun f => ⟨f.1, f.2.1, f.2.2, 1, object_id - 1⟩)

/-- The structured content of the `3D/3dmodel.model` member. -/
structure ModelXML where
  materials_id : ℕ
  materials : List (String × String)
  objects : List (ℕ × String × List TriangleTag)
  component_refs : List ℕ
  build_items : List ℕ
deriving Repr

/-- Embedding of the model XML written by `create_3d_qr_code_multicolor`
(src/generate_3d_qr.py lines 294-328): materials resource `id="1"` holding
Green `#00AA00` and White `#FFFFFF`; object 1 `base_green` (triangles from
`mesh_to_3mf_xml(base_mesh, 1)`), object 2 `qr_white` (triangles from
`mesh_to_3mf_xml(qr_mesh, 2)`), composite object 3 referencing components 1
and 2, and a single build item for object 3. -/
def multicolor_model_xml (base_faces qr_faces : List (ℕ × ℕ × ℕ)) : ModelXML :=
  { materials_id := 1
    materials := [("Green", "#00AA00"), ("White", "#FFFFFF")]
    objects := [(1, "base_green", mesh_to_3mf_triangles base_faces 1),
                (2, "qr_white", mesh_to_3mf_triangles qr_faces 2)]
    component_refs := [1, 2]
    build_items := [3] }

/-- The archive member names written by the 3MF zip writer
(src/generate_3d_qr.py lines 363-367); all four are written on every
packaged export (part metadata is always present). -/
def archive_entry_names : List String :=
  ["[Content_Types].xml", "_rels/.rels", "3D/3dmodel.model",
   "Metadata/model_settings.config"]

/-- C2: the packaged export writes exactly the expected named zip entries,
the model XML declares exactly two materials, and every triangle element's
`pid`/`p1` pair references the declared materials resource with an index
among the two declared materials — index 0 for the base object and 1 for
the QR object. -/
theorem c2_packaged_archive (base_faces qr_faces : List (ℕ × ℕ × ℕ)) :
    archive_entry_names =
      ["[Content_Types].xml", "_rels/.rels", "3D/3dmodel.model",
       "Metadata/model_settings.config"] ∧
    (multicolor_model_xml base_faces qr_faces).materials.length = 2 ∧
    ∀ o ∈ (multicolor_model_xml base_faces qr_faces).objects, ∀ t ∈ o.2.2,
      t.pid = (multicolor_model_xml base_faces qr_faces).materials_id ∧
      t.p1 < (multicolor_model_xml base_faces qr_faces).materials.length ∧
      (o.1 = 1 → t.p1 = 0) ∧ (o.1 = 2 → t.p1 = 1) := by
  refine ⟨rfl, rfl, ?_⟩
  intro o ho t ht
  simp only [multicolor_model_xml, List.mem_cons, List.not_mem_nil, or_false] at ho
  rcases ho with rfl | rfl <;>
    · simp only [mesh_to_3mf_triangles, List.mem_map] at ht
      obtain ⟨f, _, rfl⟩ := ht
      refine ⟨rfl, by simp [multicolor_model_xml], ?_, ?_⟩ <;>
        intro h <;> first | rfl | simp_all

/-- Witness for `c2_packaged_archive` at a one-triangle mesh per object. -/
theorem c2_packaged_archive_witness :
    ((1, "base_green", mesh_to_3mf_triangles [(0, 1, 2)] 1) ∈
        (multicolor_model_xml [(0, 1, 2)] [(0, 1, 2)]).objects) ∧
    ((⟨0, 1, 2, 1, 0⟩ : TriangleTag) ∈ mesh_to_3mf_triangles [(0, 1, 2)] 1) ∧
    (⟨0, 1, 2, 1, 0⟩ : TriangleTag).pid =
      (multicolor_model_xml [(0, 1, 2)] [(0, 1, 2)]).materials_id ∧
    (⟨0, 1, 2, 1, 0⟩ : TriangleTag).p1 <
      (multicolor_model_xml [(0, 1, 2)] [(0, 1, 2)]).materials.length :=
  ⟨by simp [multicolor_model_xml], by simp [mesh_to_3mf_triangles],
   ((c2_packaged_archive [(0, 1, 2)] [(0, 1, 2)]).2.2
      (1, "base_green", mesh_to_3mf_triangles [(0, 1, 2)] 1)
      (by simp [multicolor_model_xml]) ⟨0, 1, 2, 1, 0⟩
      (by simp [mesh_to_3mf_triangles])).1,
   ((c2_packaged_archive [(0, 1, 2)] [(0, 1, 2)]).2.2
      (1, "base_green", mesh_to_3mf_triangles [(0, 1, 2)] 1)
      (by simp [multicolor_model_xml]) ⟨0, 1, 2, 1, 0⟩
      (by simp [mesh_to_3mf_triangles])).2.1⟩

/-- Embedding of the temp-file lifecycle in the text-engraving block of
`create_3d_qr_code_combined` (src/generate_3d_qr.py lines 164-183; the same
block recurs at 255-273 and 465-483): a named temp file is created with
`delete=False`, the CAD export and the mesh load may each raise, and
`os.unlink` runs only after both succeed; the surrounding `except` catches
the exception but does not delete the file. Returns (whether an exception
was raised inside the block, whether the temp file was deleted). -/
def text_temp_file_block (export_raises load_raises : Bool) : Bool × Bool :=
  if export_raises then (true, false)
  else if load_raises then (true, false)
  else (false, true)

/-- Embedding of the temp-file lifecycle in the rounded-base block
(src/generate_3d_qr.py lines 124-131; also 219-223, 403-407, 429-433): the
same create / export / load / unlink sequence with no surrounding try, so
an exception propagates and the unlink is likewise skipped. -/
def base_temp_file_block (export_raises load_raises : Bool) : Bool × Bool :=
  if export_raises then (true, false)
  else if load_raises then (true, false)
  else (false, true)

/-- C6 counterexample: when the CAD export raises after the temp file was
created, the temp file is not deleted — in both the text block and the base
block — refuting deletion on all exit paths. -/
theorem c6_temp_file_counterexample :
    (text_temp_file_block true false).2 = false ∧
    (base_temp_file_block true false).2 = false :=
  ⟨rfl, rfl⟩

/-- C6 (amended): a temporary mesh file is deleted exactly on the success
path — when neither the CAD export nor the mesh load raises; when either
raises between creation and deletion, the `os.unlink` is skipped and the
file is left behind (caught-and-continue in the text block, propagating in
the base block). -/
theorem c6_temp_file_cleanup (e l : Bool) :
    (text_temp_file_block e l).2 = (!e && !l) ∧
    (base_temp_file_block e l).2 = (!e && !l) := by
  cases e <;> cases l <;> exact ⟨rfl, rfl⟩

/-- The top-level names (constants and functions) defined by
src/generate_3d_qr.py. -/
def generate_3d_qr_defined_names : List String :=
  ["CADQUERY_AVAILABLE", "OUTPUT_DIR", "SIZE_PRESETS",
   "generate_qr_code", "qr_to_array", "create_box_triangles",
   "get_dimensions", "create_3d_qr_code_combined",
   "create_3d_qr_code_multicolor", "create_3d_qr_code_inlay",
   "parse_size", "generate"]

/-- The name src/generate_all.py imports from `generate_3d_qr` (line 7). -/
def generate_all_import_name : String := "create_3d_qr_code"

/-- The seed URL list of src/generate_all.py (lines 11-16). -/
def urls : List String :=
  ["https://treasures.to/naddr1qvzqqqyj3spzqgynh25xy8zmy40g7n7zcm7lcyxc54vc5f23wejwl2agvpe47ypsqy28wumn8ghj7un9d3shjtnyv9kh2uewd9hsq8nfde6xzcm594ekzmrddahz6umrv9kxcmms95erqwfnvfskzwqkm2c9g",
   "https://treasures.to/naddr1qvzqqqyj3spzqgynh25xy8zmy40g7n7zcm7lcyxc54vc5f23wejwl2agvpe47ypsqy28wumn8ghj7un9d3shjtnyv9kh2uewd9hsq8r8v4hx2unpdskk7unpdenk2ttzv9ehxtfjxqunxcnpvyuqgl6ww4",
   "https://treasures.to/naddr1qvzqqqyj3spzqgynh25xy8zmy40g7n7zcm7lcyxc54vc5f23wejwl2agvpe47ypsqy28wumn8ghj7un9d3shjtnyv9kh2uewd9hsqgmfde6x2un9wd6x2epdd4shymm0dckkkctwvashymm095erqwfnvfskzwqayajqs",
   "https://treasures.to/naddr1qvzqqqyj3spzqgynh25xy8zmy40g7n7zcm7lcyxc54vc5f23wejwl2agvpe47ypsqy28wumn8ghj7un9d3shjtnyv9kh2uewd9hsqgm90pcx2unfv4hxxety943k7enxv4jj6arpwfekjetj95erqwfnvfskzwqwdur7t"]

/-- Outcome of one run of the batch driver. -/
inductive BatchOutcome where
  | importError : BatchOutcome
  | completed (attempted caught reported : ℕ) : BatchOutcome
deriving DecidableEq, Repr

/-- Embedding of running src/generate_all.py: the
`from generate_3d_qr import create_3d_qr_code` at line 7 must resolve
before `generate_all` can run at all; when it does, the loop (lines 23-39)
attempts every URL,
catching each failing item (`item_fails` says which iterations raise) and
continuing, and line 42 reports `len(urls)` as the final count whatever the
failures were. -/
def run_generate_all (item_fails : ℕ → Bool) : BatchOutcome :=
  if generate_all_import_name ∈ generate_3d_qr_defined_names then
    BatchOutcome.completed urls.length
      ((List.range urls.length).countP item_fails) urls.length
  else BatchOutcome.importError

/-- C7: the batch driver imports a name, `create_3d_qr_code`, that
src/generate_3d_qr.py does not define, so every run of
src/generate_all.py fails with `ImportError` at line 7 — before the
per-item try/except loop can run — whatever the per-item outcomes would
have been. -/
theorem c7_batch_driver_import_error (item_fails : ℕ → Bool) :
    generate_all_import_name ∉ generate_3d_qr_defined_names ∧
    run_generate_all item_fails = BatchOutcome.importError := by
  refine ⟨by decide, ?_⟩
  unfold run_generate_all
  rw [if_neg (by decide)]

/-- The style argument of `generate`. -/
inductive Style where
  | raised : Style
  | inlay : Style
deriving DecidableEq, Repr

/-- The generation routines `generate` can dispatch to. -/
inductive GenRoutine where
  | combined : GenRoutine
  | multicolor : GenRoutine
  | inlay : GenRoutine
deriving DecidableEq, Repr

/-- The `generators` dispatch dict of `generate` (src/generate_3d_qr.py
lines 607-612), keyed by (file type, style): both .stl entries call
`create_3d_qr_code_combined`. -/
def generator_table : List ((String × Style) × GenRoutine) :=
  [(("stl", Style.raised), GenRoutine.combined),
   (("stl", Style.inlay), GenRoutine.combined),
   (("3mf", Style.raised), GenRoutine.multicolor),
   (("3mf", Style.inlay), GenRoutine.inlay)]

/-- Python's `str.endswith`, modelled on the underlying character lists. -/
def endswith (s suffix : String) : Bool := suffix.data.isSuffixOf s.data

/-- The extension fix-up of `generate` (lines 603-604): append ".3mf" when
the path ends in neither ".stl" nor ".3mf". -/
def ensure_extension (output_file : String) : String :=
  if endswith output_file ".stl" || endswith output_file ".3mf" then output_file
  else output_file ++ ".3mf"

/-- The file-type selector of `generate` (line 614). -/
def file_type_of (output_file : String) : String :=
  if endswith output_file ".stl" then "stl" else "3mf"

/-- The routing of `generate` (src/generate_3d_qr.py lines 602-615): fix
the extension, compute the file type, and look the generator up in the
dispatch dict. -/
def route_generator (output_file : String) (style : Style) : Option GenRoutine :=
  (generator_table.find?
    (fun e => e.1 = (file_type_of (ensure_extension output_file), style))).map
    Prod.snd

/-- C8: for an output path ending in ".stl" the dispatched routine is the
raised/combined construction for both styles — the style input has no
influence on .stl output (two-run noninterference over the dispatch). -/
theorem c8_stl_style_noninterference (out : String) (s1 s2 : Style)
    (hstl : endswith out ".stl" = true) :
    route_generator out s1 = route_generator out s2 ∧
    route_generator out s1 = some GenRoutine.combined := by
  have he : ensure_extension out = out := by
    unfold ensure_extension
    rw [if_pos (by rw [hstl]; rfl)]
  have hft : file_type_of out = "stl" := by
    unfold file_type_of
    rw [if_pos hstl]
  have key : ∀ s : Style, route_generator out s = some GenRoutine.combined := by
    intro s
    unfold route_generator
    rw [he, hft]
    cases s <;> rfl
  exact ⟨(key s1).trans (key s2).symm, key s1⟩

/-- Witness for `c8_stl_style_noninterference` at a concrete .stl path. -/
theorem c8_stl_style_noninterference_witness :
    endswith "plate.stl" ".stl" = true ∧
    route_generator "plate.stl" Style.raised =
      route_generator "plate.stl" Style.inlay ∧
    route_generator "plate.stl" Style.raised = some GenRoutine.combined :=
  ⟨by decide,
   (c8_stl_style_noninterference "plate.stl" Style.raised Style.inlay (by decide)).1,
   (c8_stl_style_noninterference "plate.stl" Style.raised Style.inlay (by decide)).2⟩

/-- Python float values as relevant to `parse_size`: finite values (exact
here), NaN, and signed infinity. -/
inductive PyFloat where
  | finite (q : ℚ) : PyFloat
  | nan : PyFloat
  | inf (neg : Bool) : PyFloat
deriving DecidableEq, Repr

/-- The numeric value of a decimal digit character. -/
def digit_val (c : Char) : Option ℕ :=
  if c.isDigit then some (c.toNat - 48) else none

/-- Parse a nonempty all-digit run as a natural number. -/
def parse_digits (cs : List Char) : Option ℕ :=
  if cs.isEmpty then none
  else cs.foldlM (fun acc c => (digit_val c).map (fun dv => acc * 10 + dv)) 0

/-- Parse the mantissa of a decimal numeral: digits with an optional dot
and optional fractional digits (at least one digit overall). -/
def parse_mantissa (cs : List Char) : Option ℚ :=
  let ip := cs.takeWhile (fun c => c != '.')
  match cs.dropWhile (fun c => c != '.') with
  | [] => (parse_digits ip).map (fun n => (n : ℚ))
  | _ :: fp =>
    if fp.contains '.' then none
    else if ip.isEmpty && fp.isEmpty then none
    else
      match (if ip.isEmpty then some 0 else parse_digits ip),
            (if fp.isEmpty then some 0 else parse_digits fp) with
      | some ipv, some fpv => some ((ipv : ℚ) + (fpv : ℚ) / (10 : ℚ) ^ fp.length)
      | _, _ => none

/-- Parse an exponent: an optional sign followed by digits. -/
def parse_exp_digits (cs : List Char) : Option ℤ :=
  match cs with
  | '+' :: ds => (parse_digits ds).map (fun n => (n : ℤ))
  | '-' :: ds => (parse_digits ds).map (fun n => -(n : ℤ))
  | ds => (parse_digits ds).map (fun n => (n : ℤ))

/-- Parse a decimal numeral with an optional `e`-exponent. -/
def parse_decimal (cs : List Char) : Option ℚ :=
  let m := cs.takeWhile (fun c => c != 'e')
  match cs.dropWhile (fun c => c != 'e') with
  | [] => parse_mantissa m
  | _ :: ex =>
    match parse_mantissa m, parse_exp_digits ex with
    | some mv, some ev => some (mv * (10 : ℚ) ^ ev)
    | _, _ => none

/-- Strip surrounding whitespace and lowercase the characters. -/
def strip_and_lower (s : String) : List Char :=
  (((s.data.dropWhile (fun c => c.isWhitespace)).reverse.dropWhile
      (fun c => c.isWhitespace)).reverse).map Char.toLower

/-- Modelled from the Python builtin `float(str)` as called by `parse_size`
(src/generate_3d_qr.py line 587): surrounding whitespace is stripped,
matching is case-insensitive, and an optional sign is followed by `nan`,
`inf`/`infinity`, or a decimal numeral with optional fractional part and
optional exponent; anything else raises ValueError (here: `none`).
Digit-group underscores are not modelled. -/
def py_float_of_string (s : String) : Option PyFloat :=
  let cs := strip_and_lower s
  let sr : Bool × List Char :=
    match cs with
    | '+' :: r => (false, r)
    | '-' :: r => (true, r)
    | r => (false, r)
  match sr with
  | (neg, body) =>
    if body = "nan".data then some PyFloat.nan
    else if body = "inf".data || body = "infinity".data then
      some (PyFloat.inf neg)
    else
      (parse_decimal body).map
        (fun q => PyFloat.finite (if neg then -q else q))

/-- The `SIZE_PRESETS` dict (src/generate_3d_qr.py lines 28-33). -/
def SIZE_PRESETS : List (String × ℚ) :=
  [("small", 40), ("medium", 50), ("large", 55), ("xlarge", 60)]

/-- Embedding of `parse_size(size_arg)` (src/generate_3d_qr.py lines
582-590): preset lookup first, then `float(size_arg)`, then the
warn-and-fall-back to 50. The second component records whether the fallback
warning was printed. -/
def parse_size (size_arg : String) : PyFloat × Bool :=
  match SIZE_PRESETS.find? (fun p => p.1 == size_arg) with
  | some p => (PyFloat.finite p.2, false)
  | none =>
    match py_float_of_string size_arg with
    | some v => (v, false)
    | none => (PyFloat.finite 50, true)

/-- C9: the preset "small" resolves to exactly 40; "tiny" (neither a preset
nor float-parsable) resolves to the 50mm fallback with a warning rather
than an error; and any string the float model parses resolves to the parsed
numeric value with no warning. -/
theorem c9_size_resolution :
    parse_size "small" = (PyFloat.finite 40, false) ∧
    parse_size "tiny" = (PyFloat.finite 50, true) ∧
    ∀ s v, py_float_of_string s = some v → parse_size s = (v, false) := by
  refine ⟨by decide, by decide, ?_⟩
  intro s v hv
  unfold parse_size
  cases hfind : SIZE_PRESETS.find? (fun p => p.1 == s) with
  | none => rw [hv]
  | some p =>
    exfalso
    have hp := List.find?_some hfind
    have hmem := List.mem_of_find?_eq_some hfind
    have hs : s = p.1 := (beq_iff_eq.mp hp).symm
    rw [hs] at hv
    fin_cases hmem <;>
      exact Option.noConfusion
        ((by decide : py_float_of_string _ = none).symm.trans hv)

/-- Witness for `c9_size_resolution` on the numeric string "45". -/
theorem c9_size_resolution_witness :
    py_float_of_string "45" = some (PyFloat.finite 45) ∧
    parse_size "45" = (PyFloat.finite 45, false) :=
  ⟨by decide, c9_size_resolution.2.2 "45" (PyFloat.finite 45) (by decide)⟩

/-- C10: the size parser accepts any float-parsable string unchanged and
unvalidated, including non-positive and non-finite values: "-5" resolves to
-5 and "nan" to NaN, each with no warning and no fallback; and the 50mm
fallback fires exactly for strings that are neither a preset nor
float-parsable. -/
theorem c10_unvalidated_sizes :
    parse_size "-5" = (PyFloat.finite (-5), false) ∧
    parse_size "nan" = (PyFloat.nan, false) ∧
    ∀ s, (parse_size s).2 = true →
      SIZE_PRESETS.find? (fun p => p.1 == s) = none ∧
      py_float_of_string s = none := by
  refine ⟨by decide, by decide, ?_⟩
  intro s hwarn
  unfold parse_size at hwarn
  cases hfind : SIZE_PRESETS.find? (fun p => p.1 == s) with
  | some p =>
    rw [hfind] at hwarn
    exact absurd hwarn (by simp)
  | none =>
    rw [hfind] at hwarn
    cases hpf : py_float_of_string s with
    | some v =>
      rw [hpf] at hwarn
      exact absurd hwarn (by simp)
    | none => exact ⟨rfl, rfl⟩

/-- Witness for `c10_unvalidated_sizes` on the string "tiny". -/
theorem c10_unvalidated_sizes_witness :
    (parse_size "tiny").2 = true ∧ py_float_of_string "tiny" = none :=
  ⟨by decide, (c10_unvalidated_sizes.2.2 "tiny" (by decide)).2⟩

end TreasureCodes
